import Mathlib

/-!
Verification of the change-detection and notification-dispatch engine of the
Nintendo Museum booking assistant (src/notifier.py, src/poller.py,
src/main.py), as a shallow embedding.

Modelling conventions:
* a Python `set[str]` of dates is a `Finset String`;
* timestamps (`datetime.now()`) are integers counting seconds, and
  `(a - b).total_seconds()` is integer subtraction (the claims only involve
  whole-second quantities);
* external effects (the HTTP POST outcome, the snapshot source outcome,
  whether a dispatch would succeed) are passed in as explicit parameters;
* each function returns, besides the updated `NotificationManager` state,
  observation fields recording which calls were made (dispatch attempted,
  payload passed to the dispatcher, heartbeat check reached, ...), mirroring
  what the Python code does on that code path.
-/

/-- The webhook configuration fields the engine reads
(`config.webhook.heartbeat_interval_hours`, validated non-negative in
`src/config.py`). -/
structure WebhookConfig where
  heartbeat_interval_hours : Nat
deriving DecidableEq

/-- The mutable state of `NotificationManager` (src/notifier.py lines
171-176): `previous_available_dates`, `last_notification_time`,
`last_heartbeat_time` and the `min_notification_interval` attribute
(initialised to 300, overridable as in the repository tests). -/
structure NotifierState where
  previous_available_dates : Finset String
  last_notification_time : Option Int
  last_heartbeat_time : Option Int
  min_notification_interval : Int
deriving DecidableEq

/-- The rate-limit test of `notify_if_needed` (src/notifier.py lines
203-207): `self.last_notification_time and
(now - self.last_notification_time).total_seconds() <
self.min_notification_interval` (a `None` timestamp is falsy). -/
def rate_limited_check (s : NotifierState) (now : Int) : Bool :=
  match s.last_notification_time with
  | none => false
  | some t => now - t < s.min_notification_interval

/-- Result of one call to `NotificationManager.notify_if_needed`: the updated
state, whether `WebhookNotifier.send_notification` was invoked, the date set
passed to it (`∅` when it was not invoked), and the boolean the method
returns. -/
structure NotifyResult where
  state : NotifierState
  attempted : Bool
  payload : Finset String
  sent : Bool
deriving DecidableEq

/-- `NotificationManager.notify_if_needed` (src/notifier.py lines 178-231).
`dispatch_ok` is the boolean `WebhookNotifier.send_notification` would return
if invoked on this tick. -/
def notify_if_needed (s : NotifierState) (available_dates : Finset String)
    (now : Int) (dispatch_ok : Bool) : NotifyResult :=
  let newly_available_dates := available_dates \ s.previous_available_dates
  if newly_available_dates = ∅ then
    { state := { s with previous_available_dates := available_dates },
      attempted := false, payload := ∅, sent := false }
  else if rate_limited_check s now then
    { state := { s with previous_available_dates := available_dates },
      attempted := false, payload := ∅, sent := false }
  else
    { state := { s with
        previous_available_dates := available_dates,
        last_notification_time :=
          if dispatch_ok then some now else s.last_notification_time },
      attempted := true, payload := newly_available_dates,
      sent := dispatch_ok }

/-- The heartbeat interval in seconds used by `send_heartbeat_if_needed`
(src/notifier.py line 245): `heartbeat_interval_hours * 3600`. -/
def heartbeat_interval_seconds (cfg : WebhookConfig) : Int :=
  (cfg.heartbeat_interval_hours : Int) * 3600

/-- The due test of `send_heartbeat_if_needed` (src/notifier.py lines
248-252): `self.last_heartbeat_time is None or
(now - self.last_heartbeat_time).total_seconds() >= interval`. -/
def heartbeat_due_check (s : NotifierState) (now interval : Int) : Bool :=
  match s.last_heartbeat_time with
  | none => true
  | some t => interval ≤ now - t

/-- Result of one call to `NotificationManager.send_heartbeat_if_needed`. -/
structure HeartbeatResult where
  state : NotifierState
  attempted : Bool
  sent : Bool
deriving DecidableEq

/-- `NotificationManager.send_heartbeat_if_needed` (src/notifier.py lines
233-264). `dispatch_ok` is the boolean `WebhookNotifier.send_heartbeat`
would return if invoked. A zero `heartbeat_interval_hours` is falsy in
Python, disabling heartbeats. -/
def send_heartbeat_if_needed (cfg : WebhookConfig) (s : NotifierState)
    (now : Int) (dispatch_ok : Bool) : HeartbeatResult :=
  if cfg.heartbeat_interval_hours = 0 then
    { state := s, attempted := false, sent := false }
  else if heartbeat_due_check s now (heartbeat_interval_seconds cfg) then
    { state := { s with
        last_heartbeat_time :=
          if dispatch_ok then some now else s.last_heartbeat_time },
      attempted := true, sent := dispatch_ok }
  else
    { state := s, attempted := false, sent := false }

/-- Outcome of the single `session.post` attempt inside
`WebhookNotifier.send_notification`: the response confirms success
(`raise_for_status` passes), or an `aiohttp.ClientError` is raised
(network failure or error status), or some other exception is raised. -/
inductive PostOutcome where
  | success
  | clientError
  | otherError
deriving DecidableEq

/-- What a call to `WebhookNotifier.send_notification` does from the
view of the caller: either it raises (`RuntimeError` when the session
was never initialised) or it returns a boolean. -/
inductive SendResult where
  | raised
  | returned (b : Bool)
deriving DecidableEq

/-- Observation of one `send_notification` call: its result and how many
HTTP POST delivery attempts were made. -/
structure SendTrace where
  result : SendResult
  post_attempts : Nat
deriving DecidableEq

/-- `WebhookNotifier.send_notification` (src/notifier.py lines 58-97):
raise if the session is uninitialised; return `False` with no POST when
`available_dates` is empty; otherwise make exactly one POST and convert
every exception to `False` via the `except` clauses. -/
def send_notification (session_initialized : Bool)
    (available_dates : Finset String) (outcome : PostOutcome) : SendTrace :=
  if session_initialized then
    if available_dates = ∅ then
      { result := .returned false, post_attempts := 0 }
    else
      match outcome with
      | .success => { result := .returned true, post_attempts := 1 }
      | .clientError => { result := .returned false, post_attempts := 1 }
      | .otherError => { result := .returned false, post_attempts := 1 }
  else
    { result := .raised, post_attempts := 0 }

/-- `AvailabilityPoller.check_availability` (src/poller.py lines 42-88)
seen through its error handling: the body either produces a set of dates or
raises, and the `except` clause (lines 86-88) turns any raise into the
empty set. -/
def check_availability (source_result : Except Unit (Finset String)) :
    Finset String :=
  match source_result with
  | .ok dates => dates
  | .error _ => ∅

/-- Environment of one iteration of `start_polling`: the snapshot source
outcome and, should the corresponding dispatcher be invoked on this tick,
whether the availability dispatch and the heartbeat dispatch would
succeed. `now` is the clock reading of the tick. -/
structure TickInput where
  source_result : Except Unit (Finset String)
  now : Int
  notify_dispatch_ok : Bool
  heartbeat_dispatch_ok : Bool

/-- Observation of one iteration of `start_polling` driving
`BookingAssistant.handle_availability_found`: the state after the tick and
which calls happened during it. `notify_invoked` records whether
`notify_if_needed` was called at all, `heartbeat_evaluated` whether
`send_heartbeat_if_needed` was called, `newly_computed` the
`newly_available_dates` set computed inside `notify_if_needed` (or `none`
when it never ran). -/
structure TickTrace where
  state : NotifierState
  notify_invoked : Bool
  newly_computed : Option (Finset String)
  notify_attempted : Bool
  notify_payload : Finset String
  notify_sent : Bool
  heartbeat_evaluated : Bool
  heartbeat_attempted : Bool
  heartbeat_sent : Bool
deriving DecidableEq

/-- One iteration of `AvailabilityPoller.start_polling` (src/poller.py
lines 177-198): acquire the snapshot; only `if available_dates:` call the
callback `BookingAssistant.handle_availability_found` (src/main.py lines
54-82), which calls `notify_if_needed` and then
`send_heartbeat_if_needed`. On an empty snapshot neither manager method is
called. -/
def poll_tick (cfg : WebhookConfig) (s : NotifierState) (inp : TickInput) :
    TickTrace :=
  let available_dates := check_availability inp.source_result
  if available_dates = ∅ then
    { state := s, notify_invoked := false, newly_computed := none,
      notify_attempted := false, notify_payload := ∅, notify_sent := false,
      heartbeat_evaluated := false, heartbeat_attempted := false,
      heartbeat_sent := false }
  else
    let n := notify_if_needed s available_dates inp.now inp.notify_dispatch_ok
    let h := send_heartbeat_if_needed cfg n.state inp.now
      inp.heartbeat_dispatch_ok
    { state := h.state, notify_invoked := true,
      newly_computed := some (available_dates \ s.previous_available_dates),
      notify_attempted := n.attempted, notify_payload := n.payload,
      notify_sent := n.sent, heartbeat_evaluated := true,
      heartbeat_attempted := h.attempted, heartbeat_sent := h.sent }

/-- The polling loop run over a finite list of tick environments, threading
the `NotificationManager` state and collecting one `TickTrace` per tick. -/
def poll_run (cfg : WebhookConfig) (s : NotifierState) :
    List TickInput → List TickTrace
  | [] => []
  | inp :: rest =>
    let t := poll_tick cfg s inp
    t :: poll_run cfg t.state rest

/-- A configuration with heartbeats disabled, used in concrete runs. -/
def cfg_no_heartbeat : WebhookConfig := { heartbeat_interval_hours := 0 }

/-- The freshly constructed manager state (src/notifier.py lines 171-176)
with `min_notification_interval` overridden to 0, as the repository tests
do for the no-rate-limiting scenarios. -/
def fresh_state_no_limit : NotifierState :=
  { previous_available_dates := ∅, last_notification_time := none,
    last_heartbeat_time := none, min_notification_interval := 0 }

/-- The freshly constructed manager state with the default
`min_notification_interval = 300`. -/
def fresh_state_default : NotifierState :=
  { previous_available_dates := ∅, last_notification_time := none,
    last_heartbeat_time := none, min_notification_interval := 300 }

/-! ## Helper lemmas about the state updates of the manager methods -/

/-- Whatever branch `notify_if_needed` takes, it stores the incoming
snapshot into `previous_available_dates` (src/notifier.py lines 198, 212,
230). -/
theorem notify_prev (s : NotifierState) (a : Finset String) (now : Int)
    (ok : Bool) :
    (notify_if_needed s a now ok).state.previous_available_dates = a := by
  unfold notify_if_needed
  dsimp only
  split_ifs <;> rfl

/-- `notify_if_needed` never touches `last_heartbeat_time`. -/
theorem notify_last_hb (s : NotifierState) (a : Finset String) (now : Int)
    (ok : Bool) :
    (notify_if_needed s a now ok).state.last_heartbeat_time =
      s.last_heartbeat_time := by
  unfold notify_if_needed
  dsimp only
  split_ifs <;> rfl

/-- A call whose dispatch fails leaves `last_notification_time` unchanged
(src/notifier.py lines 219-220 only run on success). -/
theorem notify_failed_last (s : NotifierState) (a : Finset String)
    (now : Int) :
    (notify_if_needed s a now false).state.last_notification_time =
      s.last_notification_time := by
  unfold notify_if_needed
  dsimp only
  split_ifs <;> simp_all

/-- The payload handed to the dispatcher is always contained in the
newly-available difference set. -/
theorem notify_payload_subset (s : NotifierState) (a : Finset String)
    (now : Int) (ok : Bool) :
    (notify_if_needed s a now ok).payload ⊆
      a \ s.previous_available_dates := by
  unfold notify_if_needed
  dsimp only
  split_ifs <;> simp

/-- When the difference set is empty, `notify_if_needed` returns on its
first branch without invoking the dispatcher. -/
theorem notify_no_new (s : NotifierState) (a : Finset String) (now : Int)
    (ok : Bool) (h : a \ s.previous_available_dates = ∅) :
    (notify_if_needed s a now ok).attempted = false := by
  unfold notify_if_needed
  dsimp only
  simp [h]

/-- `send_heartbeat_if_needed` never touches `previous_available_dates`. -/
theorem hb_prev (cfg : WebhookConfig) (s : NotifierState) (now : Int)
    (ok : Bool) :
    (send_heartbeat_if_needed cfg s now ok).state.previous_available_dates =
      s.previous_available_dates := by
  unfold send_heartbeat_if_needed
  split_ifs <;> rfl

/-- `send_heartbeat_if_needed` never touches `last_notification_time`. -/
theorem hb_last_notif (cfg : WebhookConfig) (s : NotifierState) (now : Int)
    (ok : Bool) :
    (send_heartbeat_if_needed cfg s now ok).state.last_notification_time =
      s.last_notification_time := by
  unfold send_heartbeat_if_needed
  split_ifs <;> rfl

/-- The heartbeat dispatcher is invoked exactly when the interval is
enabled and the due test passes. -/
theorem hb_attempted (cfg : WebhookConfig) (s : NotifierState) (now : Int)
    (ok : Bool) :
    (send_heartbeat_if_needed cfg s now ok).attempted =
      (decide (cfg.heartbeat_interval_hours ≠ 0) &&
        heartbeat_due_check s now (heartbeat_interval_seconds cfg)) := by
  unfold send_heartbeat_if_needed
  split_ifs with h1 h2 <;> simp_all

/-- The due test only reads `last_heartbeat_time`. -/
theorem heartbeat_due_check_congr (s1 s2 : NotifierState)
    (now interval : Int)
    (h : s1.last_heartbeat_time = s2.last_heartbeat_time) :
    heartbeat_due_check s1 now interval =
      heartbeat_due_check s2 now interval := by
  unfold heartbeat_due_check
  rw [h]

/-- After a tick, `previous_available_dates` holds the snapshot of the tick when
that snapshot was non-empty, and is untouched otherwise (the empty branch
of `start_polling` never reaches the manager). -/
theorem tick_prev_eq (cfg : WebhookConfig) (s : NotifierState)
    (inp : TickInput) :
    (poll_tick cfg s inp).state.previous_available_dates =
      (if check_availability inp.source_result = ∅
        then s.previous_available_dates
        else check_availability inp.source_result) := by
  unfold poll_tick
  by_cases h : check_availability inp.source_result = ∅ <;>
    simp [h, hb_prev, notify_prev]

/-- Unfolding equation of `poll_run` on a cons cell. -/
theorem poll_run_cons (cfg : WebhookConfig) (s : NotifierState)
    (inp : TickInput) (rest : List TickInput) :
    poll_run cfg s (inp :: rest) =
      poll_tick cfg s inp ::
        poll_run cfg (poll_tick cfg s inp).state rest := rfl

/-! ## Claim C1: the five-tick scenario -/

/-- The five-tick environment of the scenario: snapshots `∅`,
`{"2025-09-25"}`, `{"2025-09-25"}`, `∅`, `{"2025-09-25"}`, strictly
increasing clock, every dispatch attempt succeeding. -/
def c1_inputs : List TickInput :=
  [⟨Except.ok ∅, 10, true, true⟩,
   ⟨Except.ok {"2025-09-25"}, 20, true, true⟩,
   ⟨Except.ok {"2025-09-25"}, 30, true, true⟩,
   ⟨Except.ok ∅, 40, true, true⟩,
   ⟨Except.ok {"2025-09-25"}, 50, true, true⟩]

/-- Claim C1 is false on the code: with
`MinNotificationIntervalSeconds = 0` and every dispatch succeeding, the
per-tick dispatch pattern of the run is not
`[false, true, false, false, true]` — tick 5 does not dispatch, because the
empty snapshot of tick 4 never reaches `notify_if_needed`
(`start_polling` only calls the callback when the snapshot is non-empty),
so `previous_available_dates` still contains the date. -/
theorem C1_counterexample :
    ((poll_run cfg_no_heartbeat fresh_state_no_limit c1_inputs).map
      fun t => t.notify_sent) ≠ [false, true, false, false, true] := by
  decide

/-- Claim C1 amended: on the tick sequence `∅`, `{"2025-09-25"}`,
`{"2025-09-25"}`, `∅`, `{"2025-09-25"}` with
`MinNotificationIntervalSeconds = 0` and every dispatch succeeding, an
availability notification is dispatched on tick 2 and on no other tick; in
particular tick 5 is silent because the empty snapshot of tick 4 left
`previous_available_dates` unchanged. -/
theorem C1_dispatch_pattern :
    ((poll_run cfg_no_heartbeat fresh_state_no_limit c1_inputs).map
      fun t => t.notify_sent) = [false, true, false, false, false] := by
  decide

/-! ## Claim C2: the PreviousAvailable update invariant -/

/-- Claim C2 is false on the code: a tick whose acquired snapshot is empty
leaves `previous_available_dates` at its prior non-empty value instead of
storing the snapshot of the tick, because `start_polling` skips the callback for
empty snapshots. -/
theorem C2_counterexample :
    (poll_tick cfg_no_heartbeat
        { previous_available_dates := {"2025-09-25"},
          last_notification_time := none, last_heartbeat_time := none,
          min_notification_interval := 300 }
        ⟨Except.ok ∅, 10, true, true⟩).state.previous_available_dates ≠
      check_availability (Except.ok ∅) := by
  decide

/-- Claim C2 amended: after a tick whose snapshot is non-empty,
`previous_available_dates` equals that snapshot regardless of gating and of
dispatch success (the rate limiter never prevents the update inside
`notify_if_needed`); after an empty-snapshot tick it is left unchanged,
because the manager is never invoked on such a tick. -/
theorem C2_previous_available_update (cfg : WebhookConfig)
    (s s2 : NotifierState) (inp : TickInput) (avail : Finset String)
    (now2 : Int) (ok2 : Bool) :
    (poll_tick cfg s inp).state.previous_available_dates =
      (if check_availability inp.source_result = ∅
        then s.previous_available_dates
        else check_availability inp.source_result) ∧
    (notify_if_needed s2 avail now2 ok2).state.previous_available_dates =
      avail :=
  ⟨tick_prev_eq cfg s inp, notify_prev s2 avail now2 ok2⟩

/-! ## Claim C3: failed dispatch and retry on the next tick -/

/-- The tick on which the dispatch attempt fails. -/
def c3_fail_input : TickInput := ⟨Except.ok {"2025-09-25"}, 0, false, true⟩

/-- The immediately following tick with the same snapshot, whose dispatch
would succeed, and whose gate interval condition holds
(`min_notification_interval = 0` and `last_notification_time` unset). -/
def c3_retry_input : TickInput := ⟨Except.ok {"2025-09-25"}, 1, true, true⟩

/-- Claim C3 is false on the code: after a tick whose dispatch was
attempted and failed (leaving `last_notification_time` unset, so the
interval condition holds on the next tick), the same snapshot on the
immediately following tick triggers no dispatch attempt at all —
`previous_available_dates` was updated despite the failure, so the
newly-available difference is empty. -/
theorem C3_counterexample :
    (poll_tick cfg_no_heartbeat fresh_state_no_limit
        c3_fail_input).notify_attempted = true ∧
    (poll_tick cfg_no_heartbeat fresh_state_no_limit
        c3_fail_input).notify_sent = false ∧
    (poll_tick cfg_no_heartbeat fresh_state_no_limit
        c3_fail_input).state.last_notification_time = none ∧
    (poll_tick cfg_no_heartbeat
        (poll_tick cfg_no_heartbeat fresh_state_no_limit c3_fail_input).state
        c3_retry_input).notify_attempted = false := by
  decide

/-- Claim C3 amended: a failed dispatch leaves `last_notification_time`
unchanged, but `previous_available_dates` is still overwritten with the
current snapshot, so when the same snapshot recurs on the immediately
following tick the newly-available set is empty and no dispatch is
attempted; the dates become eligible again only through a new
disappear-reappear transition. -/
theorem C3_failed_dispatch (s : NotifierState) (avail : Finset String)
    (now now2 : Int) (ok2 : Bool) :
    (notify_if_needed s avail now false).state.last_notification_time =
      s.last_notification_time ∧
    (notify_if_needed s avail now false).state.previous_available_dates =
      avail ∧
    (notify_if_needed (notify_if_needed s avail now false).state avail now2
        ok2).attempted = false := by
  refine ⟨notify_failed_last s avail now, notify_prev s avail now false, ?_⟩
  apply notify_no_new
  rw [notify_prev]
  exact Finset.sdiff_self avail

/-! ## Claims C8 and C10: the dispatcher boundary wrapper -/

/-- The dispatcher contract of `send_notification` on a non-empty date set
with an initialised session: exactly one POST attempt, no exception
propagated, and `True` exactly when the transport confirmed success. -/
def DispatchContract (dates : Finset String) (outcome : PostOutcome) :
    Prop :=
  (send_notification true dates outcome).post_attempts = 1 ∧
  (send_notification true dates outcome).result =
    SendResult.returned (decide (outcome = PostOutcome.success))

/-- Claim C8: for every non-empty date set and an initialised session,
`send_notification` makes exactly one delivery attempt, never raises, and
returns `True` exactly when the POST succeeds — every transport error and
every other exception is converted to `False`. -/
theorem C8_dispatch_contract (dates : Finset String) (outcome : PostOutcome)
    (h : dates ≠ ∅) : DispatchContract dates outcome := by
  unfold DispatchContract send_notification
  cases outcome <;> simp [h]

/-- Witness for C8 at the concrete set `{"2025-09-25"}` and a network
error outcome. -/
theorem C8_witness :
    (({"2025-09-25"} : Finset String) ≠ ∅) ∧
    DispatchContract {"2025-09-25"} PostOutcome.clientError :=
  ⟨by decide, C8_dispatch_contract {"2025-09-25"} PostOutcome.clientError
    (by decide)⟩

/-- Claim C10: calling `send_notification` with an empty date set and an
initialised session returns `False` and performs no POST at all, for every
possible transport outcome. -/
theorem C10_empty_payload_never_posted (outcome : PostOutcome) :
    (send_notification true ∅ outcome).result = SendResult.returned false ∧
    (send_notification true ∅ outcome).post_attempts = 0 := by
  cases outcome <;> exact ⟨rfl, rfl⟩

/-! ## Claim C9: snapshot acquisition failure -/

/-- What a source-failure tick actually does: the snapshot is coerced to
empty, the manager is never invoked, nothing is dispatched, and the whole
state — `previous_available_dates` included — is left unchanged. -/
def SourceFailureContract (cfg : WebhookConfig) (s : NotifierState)
    (inp : TickInput) : Prop :=
  check_availability inp.source_result = ∅ ∧
  (poll_tick cfg s inp).notify_invoked = false ∧
  (poll_tick cfg s inp).notify_sent = false ∧
  (poll_tick cfg s inp).state = s

/-- Claim C9 is false on the code: on a tick whose snapshot source raises,
`previous_available_dates` does not become empty — it keeps its prior
value, because the empty result never reaches `notify_if_needed`. -/
theorem C9_counterexample :
    (poll_tick cfg_no_heartbeat
        { previous_available_dates := {"2025-09-25"},
          last_notification_time := none, last_heartbeat_time := none,
          min_notification_interval := 300 }
        ⟨Except.error (), 10, true, true⟩).state.previous_available_dates ≠
      ∅ := by
  decide

/-- Claim C9 amended: when snapshot acquisition fails, the tick is treated
as producing the empty snapshot, no availability notification is dispatched
and the loop continues (the tick is a no-op on the state), but
`previous_available_dates` is left unchanged rather than becoming empty. -/
theorem C9_source_failure (cfg : WebhookConfig) (s : NotifierState)
    (inp : TickInput) (h : inp.source_result = Except.error ()) :
    SourceFailureContract cfg s inp := by
  have hchk : check_availability inp.source_result = ∅ := by
    rw [h]
    rfl
  refine ⟨hchk, ?_, ?_, ?_⟩ <;>
    · unfold poll_tick
      simp [hchk]

/-- Witness for C9 at a concrete failing tick from a state that previously
saw the date. -/
theorem C9_witness :
    ((⟨Except.error (), 10, true, true⟩ : TickInput).source_result =
        Except.error ()) ∧
    SourceFailureContract cfg_no_heartbeat
      { previous_available_dates := {"2025-09-25"},
        last_notification_time := none, last_heartbeat_time := none,
        min_notification_interval := 300 }
      ⟨Except.error (), 10, true, true⟩ :=
  ⟨rfl, C9_source_failure cfg_no_heartbeat
    { previous_available_dates := {"2025-09-25"},
      last_notification_time := none, last_heartbeat_time := none,
      min_notification_interval := 300 }
    ⟨Except.error (), 10, true, true⟩ rfl⟩

/-! ## Claim C4: heartbeat evaluation per tick -/

/-- Claim C4 is false on the code: on a tick whose snapshot is empty,
`send_heartbeat_if_needed` is never reached — here the heartbeat is
overdue (interval 24h, `last_heartbeat_time` unset) and still nothing is
attempted. -/
theorem C4_counterexample :
    heartbeat_due_check fresh_state_default 10
        (heartbeat_interval_seconds { heartbeat_interval_hours := 24 }) =
      true ∧
    (poll_tick { heartbeat_interval_hours := 24 } fresh_state_default
        ⟨Except.ok ∅, 10, true, true⟩).heartbeat_evaluated ≠ true ∧
    (poll_tick { heartbeat_interval_hours := 24 } fresh_state_default
        ⟨Except.ok ∅, 10, true, true⟩).heartbeat_attempted = false := by
  decide

/-- Claim C4 amended: the heartbeat scheduler is evaluated on exactly the
ticks whose snapshot is non-empty (only then does `start_polling` invoke
the callback that reaches `send_heartbeat_if_needed`), and on such a tick a
heartbeat dispatch is attempted exactly when the interval is enabled and
the due test on the pre-tick state passes. -/
theorem C4_heartbeat_evaluation (cfg : WebhookConfig) (s : NotifierState)
    (inp : TickInput) :
    ((poll_tick cfg s inp).heartbeat_evaluated = true ↔
      check_availability inp.source_result ≠ ∅) ∧
    ((poll_tick cfg s inp).heartbeat_attempted = true ↔
      (check_availability inp.source_result ≠ ∅ ∧
        cfg.heartbeat_interval_hours ≠ 0 ∧
        heartbeat_due_check s inp.now (heartbeat_interval_seconds cfg) =
          true)) := by
  by_cases h : check_availability inp.source_result = ∅
  · unfold poll_tick
    simp [h]
  · unfold poll_tick
    dsimp only
    rw [if_neg h]
    constructor
    · simp [h]
    · dsimp only
      rw [hb_attempted]
      rw [heartbeat_due_check_congr _ s _ _
        (notify_last_hb s (check_availability inp.source_result) inp.now
          inp.notify_dispatch_ok)]
      simp [h]

/-! ## Claim C5: the heartbeat scheduler contract -/

/-- The contract of `send_heartbeat_if_needed`: a dispatch is attempted
exactly when the interval (in seconds) is positive and the heartbeat is
unset or overdue; a zero configured interval never attempts; and
`last_heartbeat_time` is advanced to `now` exactly when the dispatch
returned `True`. -/
def HeartbeatContract (cfg : WebhookConfig) (s : NotifierState) (now : Int)
    (ok : Bool) : Prop :=
  ((send_heartbeat_if_needed cfg s now ok).attempted = true ↔
    (0 < heartbeat_interval_seconds cfg ∧
      (s.last_heartbeat_time = none ∨
        ∃ t, s.last_heartbeat_time = some t ∧
          heartbeat_interval_seconds cfg ≤ now - t))) ∧
  (cfg.heartbeat_interval_hours = 0 →
    (send_heartbeat_if_needed cfg s now ok).attempted = false) ∧
  (send_heartbeat_if_needed cfg s now ok).state.last_heartbeat_time =
    (if (send_heartbeat_if_needed cfg s now ok).sent = true then some now
      else s.last_heartbeat_time)

/-- Claim C5: the heartbeat contract holds for every configuration, state,
clock reading and dispatch outcome. -/
theorem C5_heartbeat_contract (cfg : WebhookConfig) (s : NotifierState)
    (now : Int) (ok : Bool) : HeartbeatContract cfg s now ok := by
  have hsec : heartbeat_interval_seconds cfg =
      (cfg.heartbeat_interval_hours : Int) * 3600 := rfl
  by_cases h0 : cfg.heartbeat_interval_hours = 0
  · refine ⟨?_, fun _ => ?_, ?_⟩ <;>
      simp [HeartbeatContract, send_heartbeat_if_needed, h0, hsec]
  · have hpos : 0 < (cfg.heartbeat_interval_hours : Int) * 3600 := by
      have := Nat.pos_of_ne_zero h0
      omega
    refine ⟨?_, fun h => absurd h h0, ?_⟩
    · rcases hs : s.last_heartbeat_time with _ | t
      · simp [send_heartbeat_if_needed, heartbeat_due_check, h0, hs, hsec,
          hpos]
      · by_cases hd : (cfg.heartbeat_interval_hours : Int) * 3600 ≤ now - t
        · simp [send_heartbeat_if_needed, heartbeat_due_check, h0, hs, hsec,
            hd, hpos]
        · simp [send_heartbeat_if_needed, heartbeat_due_check, h0, hs, hsec,
            hd]
    · rcases hs : s.last_heartbeat_time with _ | t
      · cases ok <;>
          simp [send_heartbeat_if_needed, heartbeat_due_check, h0, hs, hsec]
      · by_cases hd : (cfg.heartbeat_interval_hours : Int) * 3600 ≤ now - t <;>
          cases ok <;>
            simp [send_heartbeat_if_needed, heartbeat_due_check, h0, hs, hsec,
              hd]

/-- Witness for C5: applying the contract with the heartbeat disabled
(`heartbeat_interval_hours = 0`) shows no dispatch is attempted. -/
theorem C5_witness :
    (send_heartbeat_if_needed { heartbeat_interval_hours := 0 }
        fresh_state_default 5 true).attempted = false :=
  (C5_heartbeat_contract { heartbeat_interval_hours := 0 }
    fresh_state_default 5 true).2.1 rfl

/-! ## Claim C6: the notification gate -/

/-- When the newly-available set is non-empty, `notify_if_needed` attempts
dispatch exactly when the rate check passes. -/
theorem notify_attempted_iff (s : NotifierState) (a : Finset String)
    (now : Int) (ok : Bool) (hne : a \ s.previous_available_dates ≠ ∅) :
    (notify_if_needed s a now ok).attempted = true ↔
      rate_limited_check s now = false := by
  unfold notify_if_needed
  dsimp only
  rw [if_neg hne]
  by_cases hr : rate_limited_check s now = true
  · rw [if_pos hr]
    simp [hr]
  · rw [if_neg hr]
    simp [Bool.not_eq_true] at hr
    simp [hr]

/-- The rate check passes exactly when `last_notification_time` is unset or
at least `min_notification_interval` seconds old. -/
theorem rate_limited_check_false_iff (s : NotifierState) (now : Int) :
    rate_limited_check s now = false ↔
      (s.last_notification_time = none ∨
        ∃ t, s.last_notification_time = some t ∧
          s.min_notification_interval ≤ now - t) := by
  unfold rate_limited_check
  rcases hs : s.last_notification_time with _ | t <;> simp [hs, not_lt]

/-- The gate contract of `notify_if_needed` for a tick on which the
newly-available set is non-empty: dispatch is attempted exactly when
`last_notification_time` is unset or the configured interval has elapsed;
`previous_available_dates` is set to the current snapshot even when the
gate suppresses; and the dispatcher payload is exactly the newly-available
difference set, never the full current set. -/
def GateContract (s : NotifierState) (avail : Finset String) (now : Int)
    (ok : Bool) : Prop :=
  ((notify_if_needed s avail now ok).attempted = true ↔
    (s.last_notification_time = none ∨
      ∃ t, s.last_notification_time = some t ∧
        s.min_notification_interval ≤ now - t)) ∧
  (notify_if_needed s avail now ok).state.previous_available_dates = avail ∧
  (notify_if_needed s avail now ok).payload =
    (if (notify_if_needed s avail now ok).attempted = true
      then avail \ s.previous_available_dates else ∅)

/-- The state after a successful dispatch of `"2025-09-25"` at time 1000
under the default 300 second interval. -/
def rate_limit_state_1 : NotifierState :=
  (notify_if_needed fresh_state_default {"2025-09-25"} 1000 true).state

/-- The state after the date then disappears on the following tick. -/
def rate_limit_state_2 : NotifierState :=
  (notify_if_needed rate_limit_state_1 ∅ 1050 true).state

/-- The concrete rate-limit scenario of the claim: with
`min_notification_interval = 300`, a successful dispatch at time 1000, the
date disappearing at 1050, its reappearance at 1100 (a qualifying
transition 100s after the dispatch) is suppressed while
`previous_available_dates` is still updated, and a reappearance at 1301
(301s after the dispatch) is dispatched. -/
def RateLimitScenario : Prop :=
  (notify_if_needed fresh_state_default {"2025-09-25"} 1000 true).sent =
    true ∧
  (notify_if_needed rate_limit_state_2 {"2025-09-25"} 1100
      true).attempted = false ∧
  (notify_if_needed rate_limit_state_2 {"2025-09-25"} 1100
      true).state.previous_available_dates = {"2025-09-25"} ∧
  (notify_if_needed rate_limit_state_2 {"2025-09-25"} 1301
      true).attempted = true

/-- Claim C6: for every state, snapshot, clock reading and dispatch outcome
with non-empty newly-available set, the gate contract holds; and the
concrete
300-second scenario behaves as claimed. -/
theorem C6_gate_contract (s : NotifierState) (avail : Finset String)
    (now : Int) (ok : Bool)
    (hne : avail \ s.previous_available_dates ≠ ∅) :
    GateContract s avail now ok ∧ RateLimitScenario := by
  constructor
  · refine ⟨?_, notify_prev s avail now ok, ?_⟩
    · rw [notify_attempted_iff s avail now ok hne]
      exact rate_limited_check_false_iff s now
    · unfold notify_if_needed
      dsimp only
      rw [if_neg hne]
      by_cases hr : rate_limited_check s now = true
      · rw [if_pos hr]
        simp
      · rw [if_neg hr]
        simp
  · unfold RateLimitScenario
    decide

/-- Witness for C6 at a fresh default state seeing `"2025-09-25"`. -/
theorem C6_witness :
    (({"2025-09-25"} : Finset String) \
        fresh_state_default.previous_available_dates ≠ ∅) ∧
    (GateContract fresh_state_default {"2025-09-25"} 0 true ∧
      RateLimitScenario) :=
  ⟨by decide,
    C6_gate_contract fresh_state_default {"2025-09-25"} 0 true (by decide)⟩

/-! ## Claim C7: the change detector over whole runs -/

/-- Once a date is recorded in `previous_available_dates` and keeps
appearing in every subsequent snapshot, it never again appears in a
dispatcher payload. -/
theorem no_payload_of_mem_prev (cfg : WebhookConfig) (d : String) :
    ∀ (inps : List TickInput) (s : NotifierState),
      d ∈ s.previous_available_dates →
      (∀ i ∈ inps, d ∈ check_availability i.source_result) →
      ∀ tr ∈ poll_run cfg s inps, d ∉ tr.notify_payload
  | [], _, _, _, tr, htr => by simp [poll_run] at htr
  | inp :: rest, s, hd, hall, tr, htr => by
    rw [poll_run_cons] at htr
    have hsnap : d ∈ check_availability inp.source_result :=
      hall inp (by simp)
    have hne : check_availability inp.source_result ≠ ∅ :=
      Finset.ne_empty_of_mem hsnap
    rcases List.mem_cons.mp htr with h | h
    · subst h
      intro hmem
      have hpay : (poll_tick cfg s inp).notify_payload ⊆
          check_availability inp.source_result \
            s.previous_available_dates := by
        unfold poll_tick
        dsimp only
        rw [if_neg hne]
        exact notify_payload_subset s (check_availability inp.source_result)
          inp.now inp.notify_dispatch_ok
      exact (Finset.mem_sdiff.mp (hpay hmem)).2 hd
    · have hprev : d ∈
          (poll_tick cfg s inp).state.previous_available_dates := by
        rw [tick_prev_eq]
        simp [hne, hsnap]
      exact no_payload_of_mem_prev cfg d rest _ hprev
        (fun i hi => hall i (by simp [hi])) tr h

/-- A date appearing in the snapshot of every tick of a run is in a dispatcher
payload at most once. -/
theorem first_appearance_count (cfg : WebhookConfig) (d : String) :
    ∀ (inps : List TickInput) (s : NotifierState),
      (∀ i ∈ inps, d ∈ check_availability i.source_result) →
      ((poll_run cfg s inps).countP
        fun tr => decide (d ∈ tr.notify_payload)) ≤ 1
  | [], _, _ => by simp [poll_run]
  | inp :: rest, s, hall => by
    rw [poll_run_cons, List.countP_cons]
    have hsnap : d ∈ check_availability inp.source_result :=
      hall inp (by simp)
    have hne : check_availability inp.source_result ≠ ∅ :=
      Finset.ne_empty_of_mem hsnap
    have hprev : d ∈
        (poll_tick cfg s inp).state.previous_available_dates := by
      rw [tick_prev_eq]
      simp [hne, hsnap]
    have hnone := no_payload_of_mem_prev cfg d rest _ hprev
      (fun i hi => hall i (by simp [hi]))
    have h0 : ((poll_run cfg (poll_tick cfg s inp).state rest).countP
        fun tr => decide (d ∈ tr.notify_payload)) = 0 :=
      List.countP_eq_zero.mpr (by
        intro tr htr
        simpa using hnone tr htr)
    rw [h0]
    split_ifs <;> simp

/-- What `newly_computed` actually is on a tick: `notify_if_needed`
computes the difference of the snapshot of the tick against the stored
`previous_available_dates` (which may predate the immediately preceding
tick), and on an empty-snapshot tick nothing is computed at all. -/
def NewlyFormula (cfg : WebhookConfig) (s : NotifierState)
    (inp : TickInput) : Prop :=
  (poll_tick cfg s inp).newly_computed =
    (if check_availability inp.source_result = ∅ then none
      else some (check_availability inp.source_result \
        s.previous_available_dates))

/-- A date found in the snapshot of every tick of a run is dispatched at most
once over the whole run. -/
def FirstAppearanceOnly (cfg : WebhookConfig) (d : String)
    (s : NotifierState) (inps : List TickInput) : Prop :=
  ((poll_run cfg s inps).countP
    fun tr => decide (d ∈ tr.notify_payload)) ≤ 1

/-- A three-tick run on which the claimed pointwise formula
`newly_n = snapshot_n − snapshot_(n-1)` fails: the date, the empty set,
then the date again. -/
def c7_inputs : List TickInput :=
  [⟨Except.ok {"2025-09-25"}, 10, true, true⟩,
   ⟨Except.ok ∅, 20, true, true⟩,
   ⟨Except.ok {"2025-09-25"}, 30, true, true⟩]

/-- Claim C7 is false on the code: on the run `{d}`, `∅`, `{d}` the claimed
formula predicts the computed newly-available sets
`[{d}, ∅, {d} − ∅ = {d}]`, but the code computes `[{d}]`, then nothing on
the empty tick (the manager is not invoked), then `∅` on tick 3 because
`previous_available_dates` still holds `{d}` from tick 1. -/
theorem C7_counterexample :
    ((poll_run cfg_no_heartbeat fresh_state_no_limit c7_inputs).map
        fun tr => tr.newly_computed) ≠
      [some {"2025-09-25"}, some ∅, some {"2025-09-25"}] := by
  decide

/-- Claim C7 amended: the newly-available set computed on a tick is the
snapshot of the tick minus the stored `previous_available_dates` — which equals
the snapshot of the previous tick only when that previous tick was non-empty —
with nothing computed on empty-snapshot ticks; and a date present in the
snapshot of every tick is put in a dispatcher payload at most once, on its
first appearance only. -/
theorem C7_newly_available (cfg : WebhookConfig) (s s0 : NotifierState)
    (inp : TickInput) (d : String) (inps : List TickInput)
    (hall : ∀ i ∈ inps, d ∈ check_availability i.source_result) :
    NewlyFormula cfg s inp ∧ FirstAppearanceOnly cfg d s0 inps := by
  constructor
  · unfold NewlyFormula poll_tick
    by_cases h : check_availability inp.source_result = ∅ <;> simp [h]
  · exact first_appearance_count cfg d inps s0 hall

/-- Witness for C7 on a two-tick run that sees `"2025-09-25"` on every
tick. -/
theorem C7_witness :
    (∀ i ∈ ([⟨Except.ok {"2025-09-25"}, 0, true, true⟩,
        ⟨Except.ok {"2025-09-25"}, 10, true, true⟩] : List TickInput),
      "2025-09-25" ∈ check_availability i.source_result) ∧
    (NewlyFormula cfg_no_heartbeat fresh_state_no_limit
        ⟨Except.ok {"2025-09-25"}, 0, true, true⟩ ∧
      FirstAppearanceOnly cfg_no_heartbeat "2025-09-25"
        fresh_state_no_limit
        [⟨Except.ok {"2025-09-25"}, 0, true, true⟩,
         ⟨Except.ok {"2025-09-25"}, 10, true, true⟩]) :=
  ⟨by decide,
    C7_newly_available cfg_no_heartbeat fresh_state_no_limit
      fresh_state_no_limit ⟨Except.ok {"2025-09-25"}, 0, true, true⟩
      "2025-09-25"
      [⟨Except.ok {"2025-09-25"}, 0, true, true⟩,
       ⟨Except.ok {"2025-09-25"}, 10, true, true⟩]
      (by decide)⟩
